import Mathlib

/-!
Shallow embedding of the session-scoping and unit-of-work core of the
`sqlargon` package: `src/sqlargon/db.py` (`Database`) and
`src/sqlargon/uow.py` (`SQLAlchemyUnitOfWork`).

Sessions are identified by the order in which the session maker produces
them, so a session is a natural number.  Effects performed on a session
(commit, rollback, close) are recorded as explicit event traces, and the
propagation of a Python exception is an explicit boolean alongside the
trace.  The `_current_session` `ContextVar` is embedded as a store with one
slot per logical execution context.
-/

/-- A session identity: the model names sessions by the order the session
maker (`async_sessionmaker`, db.py line 55) creates them. -/
abbrev Session := Nat

/-- The storage behind `Database._current_session` (a `ContextVar`,
db.py lines 59-61): one slot per logical execution context, indexed by the
context's identity.  A `ContextVar` read or write performed in context
`ctx` touches only the slot of `ctx`, never a shared slot. -/
def BindingStore : Type := Nat → Option Session

/-- The store of a freshly constructed `Database`: no context has a bound
session (`ContextVar` default `None`, db.py line 60). -/
def BindingStore.empty : BindingStore := fun _ => none

/-- `ContextVar.set v` performed in context `ctx`. -/
def BindingStore.set (st : BindingStore) (ctx : Nat) (v : Option Session) : BindingStore :=
  fun c => if c = ctx then v else st c

/-- `ContextVar.get` performed in context `ctx`. -/
def BindingStore.get (st : BindingStore) (ctx : Nat) : Option Session := st ctx

/-- One write to the current-session binding, tagged with the logical
context that performs it (a scope entry publishing its session, or an exit
clearing it). -/
structure BindWrite where
  ctx : Nat
  value : Option Session
deriving DecidableEq, Repr

/-- Run a sequence of binding writes, each in the context that issues it.
This is the interleaving of the `ContextVar` writes of any number of
concurrently running logical contexts. -/
def BindingStore.run (st : BindingStore) : List BindWrite → BindingStore
  | [] => st
  | w :: ws => BindingStore.run (st.set w.ctx w.value) ws

/-- The mutable session-scope state of a `Database`: the per-context
binding store and the next session the session maker will produce. -/
structure Database where
  binding : BindingStore
  nextSession : Session

/-- `Database.current_session` getter (db.py lines 95-97): a plain
`ContextVar.get`, returning `none` when no session is bound to the calling
context. -/
def Database.current_session (db : Database) (ctx : Nat) : Option Session :=
  db.binding.get ctx

/-- Modelled from the spec: `Database.set_current_session`.  It is called
by `SQLAlchemyUnitOfWork.__aenter__` (uow.py line 43) but its definition is
not among the repository files present; spec section 4.3 specifies the
operation as `enter_scope()`: "creates a new Session, publishes it as
current for the calling logical context".  The model takes the next fresh
session from the session maker and sets the calling context's binding to
it; the second component is the session so created. -/
def Database.set_current_session (db : Database) (ctx : Nat) : Database × Session :=
  (⟨db.binding.set ctx (some db.nextSession), db.nextSession + 1⟩, db.nextSession)

/-- Python exceptions the embedded code raises.  `attributeError` is the
builtin generic `AttributeError`. -/
inductive PyError where
  | attributeError (msg : String)
deriving DecidableEq, Repr

/-- `SQLAlchemyUnitOfWork.__aenter__` (uow.py lines 42-44): calls
`self.db.set_current_session()` and returns `self`; the model returns the
updated database state. -/
def SQLAlchemyUnitOfWork.aenter (db : Database) (ctx : Nat) : Database :=
  (db.set_current_session ctx).1

/-- The `SQLAlchemyUnitOfWork.session` property (uow.py lines 46-51):
reads `self.db.current_session` and raises
`AttributeError("Session context is not set")` when it is `None`. -/
def SQLAlchemyUnitOfWork.session (db : Database) (ctx : Nat) : Except PyError Session :=
  match db.current_session ctx with
  | none => Except.error (PyError.attributeError "Session context is not set")
  | some s => Except.ok s

/-- A call `_close`/`commit` makes on the bound session, in order.
`commit ok` and `rollback ok` record whether the driver-level call
succeeded (`true`) or raised (`false`). -/
inductive SessEvent where
  | commit (ok : Bool)
  | rollback (ok : Bool)
  | close
deriving DecidableEq, Repr

/-- `SQLAlchemyUnitOfWork.commit` (uow.py lines 67-73), as the trace of
calls on the bound session together with whether an exception escapes the
method.  `commitFails` and `rollbackFails` say whether the driver-level
commit, and the rollback attempted in the `except` block, themselves
raise.  On a commit failure the session is rolled back and the commit
error re-raised only when `raise_on_exc` is set; an error from the
rollback itself always escapes. -/
def SQLAlchemyUnitOfWork.commit (raise_on_exc commitFails rollbackFails : Bool) :
    List SessEvent × Bool :=
  if commitFails then
    if rollbackFails then ([SessEvent.commit false, SessEvent.rollback false], true)
    else ([SessEvent.commit false, SessEvent.rollback true], raise_on_exc)
  else ([SessEvent.commit true], false)

/-- What running `_close` produces: the calls made on the bound session,
whether an exception escapes `_close`, and the final value of the
`_current_session` slot of the context `_close` runs in. -/
structure CloseResult where
  events : List SessEvent
  raises : Bool
  binding : Option Session
deriving DecidableEq, Repr

/-- `SQLAlchemyUnitOfWork._close` (uow.py lines 53-61): the `try` block
rolls the session back when exiting on an error, else commits via
`self.commit()` when `autocommit` is set; the `finally` block closes the
session and sets `current_session = None` in the context `_close` runs in;
an exception from the `try` block escapes only after the `finally` block
ran. -/
def SQLAlchemyUnitOfWork._close
    (excPending autocommit raise_on_exc commitFails rollbackFails : Bool) : CloseResult :=
  let step1 : List SessEvent × Bool :=
    if excPending then ([SessEvent.rollback !rollbackFails], rollbackFails)
    else if autocommit then SQLAlchemyUnitOfWork.commit raise_on_exc commitFails rollbackFails
    else ([], false)
  ⟨step1.1 ++ [SessEvent.close], step1.2, none⟩

/-- What `__aexit__` leaves behind: the caller's `_current_session` slot
after the exit, the spawned task's copy of that slot after `_close` ran in
it, and the trace `_close` produced. -/
structure AexitResult where
  callerBinding : Option Session
  taskBinding : Option Session
  closeTrace : CloseResult
deriving DecidableEq, Repr

/-- `SQLAlchemyUnitOfWork.__aexit__` (uow.py lines 63-65): runs `_close`
inside `asyncio.shield(asyncio.create_task(self._close(*exc)))`.  An
asyncio `Task` runs its coroutine in `contextvars.copy_context()` of the
creating context, so the `ContextVar` write `self.db.current_session =
None` in `_close`'s `finally` block lands in the task's copy of the
context: the creating (caller's) slot keeps the value it had.  The calls
on the session object itself (rollback / commit / close) are on a shared
object and take effect. -/
def SQLAlchemyUnitOfWork.aexit (callerBinding : Option Session)
    (excPending autocommit raise_on_exc commitFails rollbackFails : Bool) : AexitResult :=
  let r := SQLAlchemyUnitOfWork._close excPending autocommit raise_on_exc commitFails rollbackFails
  { callerBinding := callerBinding
    taskBinding := r.binding
    closeTrace := r }

/-- A repository instance, `repository_cls(self.db)` (uow.py line 83): the
declared repository class applied to the Database handle. -/
structure Repository where
  cls : String
  db : Nat
deriving DecidableEq, Repr

/-- The per-instance state `__getattr__` works on: the declared type hints
of the concrete Unit of Work subtype (`get_type_hints(self)`, uow.py
line 80) and the `_repositories` cache. -/
structure UoWState where
  type_hints : List (String × String)
  repositories : List (String × Repository)
deriving DecidableEq, Repr

/-- `SQLAlchemyUnitOfWork.__init__` (uow.py lines 31-40): a fresh instance
starts with an empty `_repositories` cache. -/
def UoWState.init (hints : List (String × String)) : UoWState :=
  ⟨hints, []⟩

/-- `SQLAlchemyUnitOfWork.__getattr__` (uow.py lines 78-84): when `item`
is not yet cached, the declared type hint for it is looked up; if there is
none, the builtin `AttributeError` is raised (uow.py line 82, with the
unformatted message as its first argument); otherwise the repository class
is instantiated on the Database handle and cached.  The boolean of the
result records whether this access instantiated a new repository. -/
def SQLAlchemyUnitOfWork.getattr (db : Nat) (u : UoWState) (item : String) :
    Except PyError (Repository × UoWState × Bool) :=
  match u.repositories.lookup item with
  | some r => Except.ok (r, u, false)
  | none =>
    match u.type_hints.lookup item with
    | none => Except.error (PyError.attributeError "Could not resolve type annotation for %s")
    | some cls => Except.ok (⟨cls, db⟩, ⟨u.type_hints, u.repositories ++ [(item, ⟨cls, db⟩)]⟩, true)

/-- The insert-statement constructor a `Database` ends up with
(db.py lines 36, 67, 76): the generic `sa.insert` or a dialect-specific
variant. -/
inductive InsertVariant where
  | generic
  | postgres
  | sqlite
deriving DecidableEq, Repr

/-- The dialect capabilities a `Database` carries. -/
structure DialectCaps where
  supports_returning : Bool
  supports_on_conflict : Bool
  insert : InsertVariant
deriving DecidableEq, Repr

/-- The class-level defaults (db.py lines 32-38): both flags `False`, the
generic `sa.insert`. -/
def Database.capsDefaults : DialectCaps :=
  ⟨false, false, InsertVariant.generic⟩

/-- Python string comparison `a < b` on code-point sequences: compare
elementwise; at the first differing position the smaller code point wins;
a strict prefix is smaller. -/
def pyStrLtChars : List Char → List Char → Bool
  | [], [] => false
  | [], _ :: _ => true
  | _ :: _, [] => false
  | a :: as, b :: bs => if a < b then true else if b < a then false else pyStrLtChars as bs

/-- Python string comparison `a > b`, as used by db.py line 77
(`sqlite3.sqlite_version > "3.35"`). -/
def pyStrGt (a b : String) : Bool := pyStrLtChars b.data a.data

/-- The dialect detection of `Database.__init__` (db.py lines 63-79),
computed once at construction: `postgresql` switches to the postgres
insert and sets both flags; `sqlite` switches to the sqlite insert, always
sets on-conflict, and sets returning from the Python string comparison
`sqlite3.sqlite_version > "3.35"`, where `sqlite_version` is the linked
SQLite library version string; any other dialect keeps the class-level
defaults. -/
def Database.capsFor (dialect : String) (sqlite_version : String) : DialectCaps :=
  if dialect = "postgresql" then ⟨true, true, InsertVariant.postgres⟩
  else if dialect = "sqlite" then ⟨pyStrGt sqlite_version "3.35", true, InsertVariant.sqlite⟩
  else Database.capsDefaults

/-- Numeric components of a dotted version string: "3.9.0" becomes
[3, 9, 0].  Used to state what "the linked sqlite library version is
greater than 3.35" means as a version comparison. -/
def versionComponentsAux : List Char → Nat → List Nat
  | [], acc => [acc]
  | c :: cs, acc =>
    if c = '.' then acc :: versionComponentsAux cs 0
    else versionComponentsAux cs (acc * 10 + (c.toNat - 48))

/-- Numeric components of a dotted version string. -/
def versionComponents (s : String) : List Nat :=
  versionComponentsAux s.data 0

/-- Lexicographic strict order on lists of naturals. -/
def natListLt : List Nat → List Nat → Bool
  | [], [] => false
  | [], _ :: _ => true
  | _ :: _, [] => false
  | a :: as, b :: bs => if a < b then true else if b < a then false else natListLt as bs

/-- `a > b` on dotted version strings compared as numeric versions:
3.9.0 is smaller than 3.35. -/
def versionGt (a b : String) : Bool :=
  natListLt (versionComponents b) (versionComponents a)

/-- Positional execution options; Python truthiness: a tuple is falsy iff
it is empty.  The elements themselves are opaque. -/
abbrev Args := List Nat

/-- Keyword execution options; a dict is falsy iff it is empty. -/
abbrev Kwargs := List (String × Nat)

/-- `Database.default_execution_options` (db.py line 34): `((), {})`. -/
def Database.default_execution_options : Args × Kwargs := ([], [])

/-- The options guard of `Database.execute` (db.py lines 128-129; the same
two lines open `execute_from_connection` and `stream_scalars`):
`if not args or kwargs: args, kwargs = self.default_execution_options`.
Python parses the condition as `(not args) or kwargs`, so the stored
defaults replace the caller's options whenever `args` is empty or `kwargs`
is non-empty. -/
def Database.executionOptions (args : Args) (kwargs : Kwargs) : Args × Kwargs :=
  if args.isEmpty || !kwargs.isEmpty then Database.default_execution_options
  else (args, kwargs)

/-- A call a Database-level query operation makes, tagged with the session
it is made on. -/
inductive DbEvent where
  | openSession (s : Session)
  | runQuery (s : Session)
  | runConnQuery (s : Session)
  | streamRows (s : Session)
  | commit (s : Session)
  | rollback (s : Session)
  | close (s : Session)
deriving DecidableEq, Repr

/-- `Database.session_factory` (db.py lines 107-116) wrapped around a body:
opens a session from the session maker, yields to the body, commits when
the body completed normally, rolls back and re-raises when the body
raised, and closes the session in the `finally` block before control
returns.  `commitFails` says whether the commit performed on normal
completion itself raises (then the `except` block rolls back and the error
escapes after the close).  Returns the trace and whether an exception
escapes. -/
def Database.session_factory (s : Session) (body : List DbEvent)
    (bodyRaises commitFails : Bool) : List DbEvent × Bool :=
  if bodyRaises then
    (DbEvent.openSession s :: body ++ [DbEvent.rollback s, DbEvent.close s], true)
  else if commitFails then
    (DbEvent.openSession s :: body ++ [DbEvent.commit s, DbEvent.rollback s, DbEvent.close s], true)
  else
    (DbEvent.openSession s :: body ++ [DbEvent.commit s, DbEvent.close s], false)

/-- The session handling of `Database.execute` (db.py lines 130-134): with
a session bound to the calling context the statement runs on it, with no
commit, close or release; with none bound, a temporary session obtained
through `self.session()` (that is, `session_factory`) runs it.
`queryRaises` says whether the statement itself raises; `commitFails`
whether the temporary session's commit raises. -/
def Database.execute (db : Database) (ctx : Nat) (queryRaises commitFails : Bool) :
    List DbEvent × Bool :=
  match db.current_session ctx with
  | some s => ([DbEvent.runQuery s], queryRaises)
  | none => Database.session_factory db.nextSession [DbEvent.runQuery db.nextSession]
      queryRaises commitFails

/-- The session handling of `Database.execute_from_connection`
(db.py lines 139-145): as `Database.execute`, but the statement runs on
the connection obtained from the session. -/
def Database.execute_from_connection (db : Database) (ctx : Nat)
    (queryRaises commitFails : Bool) : List DbEvent × Bool :=
  match db.current_session ctx with
  | some s => ([DbEvent.runConnQuery s], queryRaises)
  | none => Database.session_factory db.nextSession [DbEvent.runConnQuery db.nextSession]
      queryRaises commitFails

/-- The session handling of `Database.stream_scalars`
(db.py lines 150-158): as `Database.execute`, but the rows are streamed
from the session; with no bound session the stream is consumed inside the
temporary session's scope. -/
def Database.stream_scalars (db : Database) (ctx : Nat)
    (queryRaises commitFails : Bool) : List DbEvent × Bool :=
  match db.current_session ctx with
  | some s => ([DbEvent.streamRows s], queryRaises)
  | none => Database.session_factory db.nextSession [DbEvent.streamRows db.nextSession]
      queryRaises commitFails

/-- C1: entering a Unit of Work scope (`__aenter__`) asks
`set_current_session` for a new session and publishes it for the calling
logical context: immediately after entry the bound session exists (the
`session` property returns it rather than raising) and it is the calling
context's current session. -/
theorem C1_aenter_publishes_session (db : Database) (ctx : Nat) :
    Database.current_session (SQLAlchemyUnitOfWork.aenter db ctx) ctx =
      some (Database.set_current_session db ctx).2 ∧
    SQLAlchemyUnitOfWork.session (SQLAlchemyUnitOfWork.aenter db ctx) ctx =
      Except.ok (Database.set_current_session db ctx).2 := by
  constructor <;>
    simp [SQLAlchemyUnitOfWork.aenter, SQLAlchemyUnitOfWork.session,
      Database.set_current_session, Database.current_session,
      BindingStore.set, BindingStore.get]

/-- C2: evaluation of `__aexit__` at a caller whose context has session 5
bound, over every combination of exit flags.  Steps (1) and (3) behave as
claimed: an error exit rolls back, a normal exit commits exactly when
autocommit is set, the close on the session runs last, and an exception
escapes only after it.  Step (2) fails for the binding: `_close` clears
the `_current_session` slot of the context it runs in, but `__aexit__`
runs `_close` in a task whose context is a copy of the caller's, so the
caller's binding is never cleared — it still holds session 5 after the
exit. -/
theorem C2_aexit_eval (e a roe cf rf : Bool) :
    ((SQLAlchemyUnitOfWork.aexit (some 5) e a roe cf rf).closeTrace.events.getLast? =
        some SessEvent.close) ∧
    (e = true →
      ∃ ok, SessEvent.rollback ok ∈
        (SQLAlchemyUnitOfWork.aexit (some 5) e a roe cf rf).closeTrace.events) ∧
    (e = false →
      ((∃ ok, SessEvent.commit ok ∈
          (SQLAlchemyUnitOfWork.aexit (some 5) e a roe cf rf).closeTrace.events) ↔
        a = true)) ∧
    ((SQLAlchemyUnitOfWork.aexit (some 5) e a roe cf rf).taskBinding = none) ∧
    ((SQLAlchemyUnitOfWork.aexit (some 5) e a roe cf rf).callerBinding = some 5) := by
  revert e a roe cf rf; decide

/-- C3 counterexample: on a freshly constructed Database, with no scope
ever entered, the read of the current-session binding in context 0
returns `none` silently — the accessor does not fail, refuting at this
concrete input the claim that reading the binding with no active scope is
an error rather than a silent null. -/
theorem C3_counterexample :
    Database.current_session ⟨BindingStore.empty, 0⟩ 0 = none := by rfl

/-- C3 amended: when no session is bound to the calling context, the
Database-level accessor returns `none` silently, and it is only the Unit
of Work's `session` property that turns the `None` it reads into an
error — the builtin generic `AttributeError("Session context is not
set")`, not a dedicated NoActiveScopeError. -/
theorem C3_no_scope_read (db : Database) (ctx : Nat)
    (h : Database.current_session db ctx = none) :
    Database.current_session db ctx = none ∧
    SQLAlchemyUnitOfWork.session db ctx =
      Except.error (PyError.attributeError "Session context is not set") :=
  ⟨h, by simp [SQLAlchemyUnitOfWork.session, h]⟩

/-- C3 witness: the amended statement at a fresh Database and context 1. -/
theorem C3_no_scope_read_witness :
    Database.current_session ⟨BindingStore.empty, 3⟩ 1 = none ∧
    SQLAlchemyUnitOfWork.session ⟨BindingStore.empty, 3⟩ 1 =
      Except.error (PyError.attributeError "Session context is not set") :=
  C3_no_scope_read ⟨BindingStore.empty, 3⟩ 1 rfl

/-- C4: the current-session binding is stored per logical execution
context, never in a shared slot: under an arbitrary interleaving `ws` of
binding writes by any contexts, a context `a` that never publishes
session `sb` itself never reads `sb` — in particular a context never
reads the session another concurrently running context created and
published for itself, whatever the interleaving. -/
theorem C4_context_isolation (ws : List BindWrite) (st : BindingStore)
    (a : Nat) (sb : Session)
    (h0 : st.get a ≠ some sb)
    (hA : ∀ w ∈ ws, w.ctx = a → w.value ≠ some sb) :
    (st.run ws).get a ≠ some sb := by
  induction ws generalizing st with
  | nil => exact h0
  | cons w ws ih =>
    rw [BindingStore.run]
    refine ih (st.set w.ctx w.value) ?_ ?_
    · by_cases hc : a = w.ctx
      · have hv := hA w (List.mem_cons_self w ws) hc.symm
        simpa [BindingStore.get, BindingStore.set, hc] using hv
      · simpa [BindingStore.get, BindingStore.set, hc] using h0
    · exact fun w' hw' => hA w' (List.mem_cons_of_mem w hw')

/-- C4 witness: contexts 0 and 1 enter scopes concurrently, publishing
sessions 10 and 20 with their writes interleaved; context 0 never reads
context 1's session 20. -/
theorem C4_context_isolation_witness :
    (BindingStore.run BindingStore.empty
      [⟨0, some 10⟩, ⟨1, some 20⟩, ⟨0, some 10⟩, ⟨1, none⟩]).get 0 ≠ some 20 :=
  C4_context_isolation [⟨0, some 10⟩, ⟨1, some 20⟩, ⟨0, some 10⟩, ⟨1, none⟩]
    BindingStore.empty 0 20 (by decide) (by decide)

/-- C5: `commit()` first commits the bound session; if the commit raises,
a rollback of that session is performed before anything escapes; when the
rollback succeeds the commit failure escapes exactly when `raise_on_exc`
is set — so with it unset the failure is swallowed after the rollback and
`commit()` returns normally; a successful commit raises nothing. -/
theorem C5_commit_policy (roe cf rf : Bool) :
    (SQLAlchemyUnitOfWork.commit roe cf rf).1.head? = some (SessEvent.commit !cf) ∧
    (cf = true → (SQLAlchemyUnitOfWork.commit roe cf rf).1 =
      [SessEvent.commit false, SessEvent.rollback !rf]) ∧
    (cf = false → SQLAlchemyUnitOfWork.commit roe cf rf = ([SessEvent.commit true], false)) ∧
    (cf = true → rf = false → (SQLAlchemyUnitOfWork.commit roe cf rf).2 = roe) := by
  revert roe cf rf; decide

/-- C6: the capability policy computed once at construction, evaluated.
For `postgresql` and for unknown dialects the claimed table holds
exactly, and for `sqlite` the on-conflict flag and insert variant do too;
but the returning flag comes from a Python string comparison
(`sqlite3.sqlite_version > "3.35"`, db.py line 77), not a version
comparison: with linked SQLite 3.9.0 the code sets
`supports_returning := true` although 3.9.0 is smaller than 3.35 as a
version, contradicting the claimed "if and only if". -/
theorem C6_dialect_policy_eval :
    Database.capsFor "postgresql" "3.9.0" = ⟨true, true, InsertVariant.postgres⟩ ∧
    Database.capsFor "mysql" "3.40.0" = Database.capsDefaults ∧
    Database.capsFor "sqlite" "3.36.0" = ⟨true, true, InsertVariant.sqlite⟩ ∧
    Database.capsFor "sqlite" "3.34.1" = ⟨false, true, InsertVariant.sqlite⟩ ∧
    (Database.capsFor "sqlite" "3.9.0").supports_returning = true ∧
    versionGt "3.9.0" "3.35" = false := by decide

/-- C7 counterexample: requesting the repository name "users" on a fresh
Unit of Work whose declared hints resolve only "pets" fails with the
builtin generic `AttributeError` (uow.py line 82) — precisely a generic
attribute error, refuting the claim that the failure is a dedicated
UnresolvedRepositoryError rather than a generic attribute error. -/
theorem C7_counterexample :
    SQLAlchemyUnitOfWork.getattr 0 (UoWState.init [("pets", "PetRepository")]) "users" =
      Except.error (PyError.attributeError "Could not resolve type annotation for %s") := by
  rfl

/-- C7 amended: requesting a repository attribute whose declared type
cannot be resolved fails with the builtin generic `AttributeError`
carrying the unformatted message "Could not resolve type annotation for
%s"; the code defines no dedicated UnresolvedRepositoryError. -/
theorem C7_unresolved_attribute_error (db : Nat) (hints : List (String × String))
    (item : String) (h : hints.lookup item = none) :
    SQLAlchemyUnitOfWork.getattr db (UoWState.init hints) item =
      Except.error (PyError.attributeError "Could not resolve type annotation for %s") := by
  simp [SQLAlchemyUnitOfWork.getattr, UoWState.init, h]

/-- C7 witness: the amended statement at a concrete Unit of Work that
declares "users" but not "pets". -/
theorem C7_unresolved_witness :
    SQLAlchemyUnitOfWork.getattr 7 (UoWState.init [("users", "UserRepository")]) "pets" =
      Except.error (PyError.attributeError "Could not resolve type annotation for %s") :=
  C7_unresolved_attribute_error 7 [("users", "UserRepository")] "pets" rfl

/-- C8: on a fresh Unit of Work instance — whose `__init__` starts the
cache empty, so nothing from any other instance can be reused — the first
access of a resolvable repository name instantiates the repository on the
Database handle and caches it under that name, and a second access of the
same name returns the identical cached instance while instantiating
nothing. -/
theorem C8_repository_caching (db : Nat) (hints : List (String × String))
    (item cls : String) (h : hints.lookup item = some cls) :
    SQLAlchemyUnitOfWork.getattr db (UoWState.init hints) item =
      Except.ok (⟨cls, db⟩, ⟨hints, [(item, ⟨cls, db⟩)]⟩, true) ∧
    SQLAlchemyUnitOfWork.getattr db ⟨hints, [(item, ⟨cls, db⟩)]⟩ item =
      Except.ok (⟨cls, db⟩, ⟨hints, [(item, ⟨cls, db⟩)]⟩, false) := by
  constructor
  · simp [SQLAlchemyUnitOfWork.getattr, UoWState.init, h]
  · simp [SQLAlchemyUnitOfWork.getattr, List.lookup]

/-- C8 witness: the caching behaviour at a concrete Unit of Work
declaring "users" as a UserRepository, on Database handle 3. -/
theorem C8_repository_caching_witness :
    SQLAlchemyUnitOfWork.getattr 3 (UoWState.init [("users", "UserRepository")]) "users" =
      Except.ok (⟨"UserRepository", 3⟩,
        ⟨[("users", "UserRepository")], [("users", ⟨"UserRepository", 3⟩)]⟩, true) ∧
    SQLAlchemyUnitOfWork.getattr 3
        ⟨[("users", "UserRepository")], [("users", ⟨"UserRepository", 3⟩)]⟩ "users" =
      Except.ok (⟨"UserRepository", 3⟩,
        ⟨[("users", "UserRepository")], [("users", ⟨"UserRepository", 3⟩)]⟩, false) :=
  C8_repository_caching 3 [("users", "UserRepository")] "users" "UserRepository" rfl

/-- C9: evaluation of the options guard at calls that do supply options.
Because `not args or kwargs` parses as `(not args) or kwargs`, a call
supplying keyword options only, and a call supplying both positional and
keyword options, both have the caller's options discarded and the stored
defaults substituted; only a call supplying positional options and no
keyword options keeps what it supplied; a call supplying nothing gets the
defaults. -/
theorem C9_execution_options_eval :
    Database.executionOptions [] [("stream_results", 1)] = ([], []) ∧
    Database.executionOptions [] [("stream_results", 1)] ≠ ([], [("stream_results", 1)]) ∧
    Database.executionOptions [5] [("stream_results", 1)] = ([], []) ∧
    Database.executionOptions [5] [] = ([5], []) ∧
    Database.executionOptions [] [] = Database.default_execution_options := by
  decide

/-- C10: with no session bound to the calling context, `execute`,
`execute_from_connection` and `stream_scalars` do not fail: each opens a
fresh temporary session, runs the statement in it, commits it on normal
completion — rolling back instead when the statement raised, or after the
commit itself failed — and closes it last, before control returns; the
statement's exception (or the commit's) is what propagates, never a
missing-binding error. -/
theorem C10_unscoped_temporary_session (db : Database) (ctx : Nat) (qr cf : Bool)
    (h : Database.current_session db ctx = none) :
    Database.execute db ctx qr cf =
      (DbEvent.openSession db.nextSession :: DbEvent.runQuery db.nextSession ::
        (if qr then [DbEvent.rollback db.nextSession, DbEvent.close db.nextSession]
         else if cf then
          [DbEvent.commit db.nextSession, DbEvent.rollback db.nextSession,
            DbEvent.close db.nextSession]
         else [DbEvent.commit db.nextSession, DbEvent.close db.nextSession]), qr || cf) ∧
    Database.execute_from_connection db ctx qr cf =
      (DbEvent.openSession db.nextSession :: DbEvent.runConnQuery db.nextSession ::
        (if qr then [DbEvent.rollback db.nextSession, DbEvent.close db.nextSession]
         else if cf then
          [DbEvent.commit db.nextSession, DbEvent.rollback db.nextSession,
            DbEvent.close db.nextSession]
         else [DbEvent.commit db.nextSession, DbEvent.close db.nextSession]), qr || cf) ∧
    Database.stream_scalars db ctx qr cf =
      (DbEvent.openSession db.nextSession :: DbEvent.streamRows db.nextSession ::
        (if qr then [DbEvent.rollback db.nextSession, DbEvent.close db.nextSession]
         else if cf then
          [DbEvent.commit db.nextSession, DbEvent.rollback db.nextSession,
            DbEvent.close db.nextSession]
         else [DbEvent.commit db.nextSession, DbEvent.close db.nextSession]), qr || cf) := by
  cases qr <;> cases cf <;>
    simp [Database.execute, Database.execute_from_connection, Database.stream_scalars,
      h, Database.session_factory]

/-- C10 witness: the theorem at a fresh Database (no binding, next
session 5), context 0, with a raising statement. -/
theorem C10_unscoped_witness :
    Database.execute ⟨BindingStore.empty, 5⟩ 0 true false =
      ([DbEvent.openSession 5, DbEvent.runQuery 5, DbEvent.rollback 5, DbEvent.close 5],
        true) ∧
    Database.execute_from_connection ⟨BindingStore.empty, 5⟩ 0 true false =
      ([DbEvent.openSession 5, DbEvent.runConnQuery 5, DbEvent.rollback 5, DbEvent.close 5],
        true) ∧
    Database.stream_scalars ⟨BindingStore.empty, 5⟩ 0 true false =
      ([DbEvent.openSession 5, DbEvent.streamRows 5, DbEvent.rollback 5, DbEvent.close 5],
        true) :=
  C10_unscoped_temporary_session ⟨BindingStore.empty, 5⟩ 0 true false rfl
